import Mathlib

/-!
Verification development for the obsrv monitoring pipeline
(`src/backend/src`).  Python services are shallowly embedded as
executable Lean definitions: prices are `Option ℚ` (SQL `NUMERIC` /
Python `Decimal` with `NULL`), statuses are the literal strings the
code stores, machine strings are `List Char`, and each fallible HTTP
interaction is an explicit outcome value.  Definitions follow the
Python sources statement by statement; file and line references are
given on each definition.
-/

/-- Characters of a Python `str`; all string manipulation in the
embedding is done on explicit character lists. -/
abbrev Chars := List Char

/- ------------------------------------------------------------------
Change detector: `src/backend/src/services/change_detector.py`
------------------------------------------------------------------ -/

/-- `ChangeDetectionService._detect_price_change`
(`change_detector.py` lines 179-218).  Returns
`(price_changed, price_change_pct, exceeded_threshold)` exactly as the
Python function does: both `None` means no change; one `None` means
change with null pct and threshold exceeded; `old == 0` returns change
with null pct and threshold exceeded; otherwise the percentage is
`(new - old)/old * 100`, equality gives `(False, 0, False)` and a real
change compares `|pct|` against the threshold. -/
def detect_price_change (old_price new_price : Option ℚ) (threshold_pct : ℚ) :
    Bool × Option ℚ × Bool :=
  match old_price, new_price with
  | none, none => (false, none, false)
  | none, some _ => (true, none, true)
  | some _, none => (true, none, true)
  | some o, some n =>
    if o = 0 then (true, none, true)
    else
      let price_change_pct := ((n - o) / o) * 100
      if o = n then (false, some 0, false)
      else (true, some price_change_pct, |price_change_pct| ≥ threshold_pct)

/-- `ChangeDetectionService._detect_stock_change`
(`change_detector.py` lines 220-235): plain inequality of the two
status strings. -/
def detect_stock_change (old_status new_status : String) : Bool :=
  old_status != new_status

/-- The two fields of a `ProductHistoryRecord` row that claim C4 is
about (`models/product_history.py`; populated in
`scheduled_crawl.py` lines 147-162). -/
structure HistoryRow where
  price : Option ℚ
  price_changed : Bool
  deriving Repr, DecidableEq

/-- History writing step of `process_scheduled_crawl`
(`scheduled_crawl.py` lines 140-162): the new row stores the crawled
price and the `price_changed` flag computed by the change detector
against the latest previous row; with no previous row the detector
returns the all-false result (`change_detector.py` lines 107-112). -/
def write_history_row (prev : Option HistoryRow) (new_price : Option ℚ)
    (threshold_pct : ℚ) : HistoryRow :=
  match prev with
  | none => { price := new_price, price_changed := false }
  | some p =>
    { price := new_price
      price_changed := (detect_price_change p.price new_price threshold_pct).1 }

/- ------------------------------------------------------------------
Webhook deliverer: `src/backend/src/services/webhook_service.py`
------------------------------------------------------------------ -/

/-- Outcome of the HTTP POST inside `deliver_webhook`
(`webhook_service.py` lines 130-200): a response with status code and
body text, or one of the exception classes the code catches. -/
inductive HttpOutcome where
  | response (statusCode : Nat) (body : Chars)
  | timeout
  | requestError
  | unexpectedError
  deriving Repr, DecidableEq

/-- `WebhookDeliveryService.RETRY_SCHEDULE` (`webhook_service.py`
line 40): minutes of delay indexed by attempt number. -/
def RETRY_SCHEDULE : List Nat := [0, 5, 30]

/-- `WebhookDeliveryService.MAX_ATTEMPTS` (`webhook_service.py`
line 43). -/
def MAX_ATTEMPTS : Nat := 3

/-- The fields of a `WebhookDeliveryLog` row that claims C2 and C8
are about (`webhook_service.py` lines 232-247).  `next_retry_at` is
in minutes from `now` (the code uses `datetime + timedelta(minutes)`). -/
structure DeliveryLog where
  attempt_number : Nat
  http_status_code : Option Nat
  response_body : Option Chars
  status : String
  next_retry_at : Option Nat
  deriving Repr, DecidableEq

/-- `WebhookDeliveryService.deliver_webhook` (`webhook_service.py`
lines 130-247), given the outcome of the POST.  A 2xx response is
`success`; every other outcome is first classified `failed`
(lines 143-200), then either becomes `retrying` with
`next_retry_at = now + RETRY_SCHEDULE[attempt_number]` when
`attempt_number < MAX_ATTEMPTS`, or `exhausted` (lines 202-229).
The stored `response_body` is `response.text[:1000]` (line 140). -/
def deliver_webhook (outcome : HttpOutcome) (attempt_number : Nat) (now : Nat) :
    DeliveryLog :=
  let http_status_code : Option Nat :=
    match outcome with
    | .response s _ => some s
    | _ => none
  let response_body : Option Chars :=
    match outcome with
    | .response _ b => some (b.take 1000)
    | _ => none
  let status : String :=
    match outcome with
    | .response s _ => if 200 ≤ s ∧ s < 300 then "success" else "failed"
    | _ => "failed"
  if status = "failed" then
    if attempt_number < MAX_ATTEMPTS then
      { attempt_number
        http_status_code
        response_body
        status := "retrying"
        next_retry_at := some (now + RETRY_SCHEDULE.getD attempt_number 0) }
    else
      { attempt_number
        http_status_code
        response_body
        status := "exhausted"
        next_retry_at := none }
  else
    { attempt_number
      http_status_code
      response_body
      status
      next_retry_at := none }

/-- Whether the POST outcome is an HTTP 2xx response
(`webhook_service.py` line 143). -/
def is2xx : HttpOutcome → Bool
  | .response s _ => decide (200 ≤ s ∧ s < 300)
  | _ => false

/- ------------------------------------------------------------------
Scheduler webhook emission:
`src/backend/src/services/inngest_functions/scheduled_crawl.py`
------------------------------------------------------------------ -/

/-- The per-product change flags that drive webhook emission
(`ChangeDetectionResult`, `change_detector.py` lines 23-64), plus
whether the crawl of the product itself succeeded
(`scheduled_crawl.py` line 132). -/
structure ProductCrawl where
  ok : Bool
  price_changed : Bool
  exceeded_threshold : Bool
  stock_changed : Bool
  deriving Repr, DecidableEq

/-- `ChangeDetectionResult.has_changes` (`change_detector.py`
lines 62-64). -/
def has_changes (p : ProductCrawl) : Bool :=
  p.price_changed || p.stock_changed

/-- Website webhook configuration used by the emission gate
(`scheduled_crawl.py` line 165): `webhook_enabled` and the truthiness
of `webhook_endpoint_url`. -/
structure WebsiteWebhookCfg where
  webhook_enabled : Bool
  has_endpoint_url : Bool
  deriving Repr, DecidableEq

/-- `trigger_webhook_for_change` (`scheduled_crawl.py` lines 276-384),
reduced to the event types it sends.  The Python function holds a
single `event` variable: the price-change branch (line 298) assigns it
when `price_changed and exceeded_threshold`, the stock-change branch
(line 332) reassigns it when `stock_changed`, and at most one
`send_event` happens (line 364), guarded by `event_id` being set. -/
def trigger_webhook_for_change (p : ProductCrawl) : List String :=
  let event₀ : Option String := none
  let event₁ := if p.price_changed && p.exceeded_threshold
    then some "product.price_changed" else event₀
  let event₂ := if p.stock_changed
    then some "product.stock_changed" else event₁
  match event₂ with
  | some e => [e]
  | none => []

/-- Events sent for one product in `process_scheduled_crawl`
(`scheduled_crawl.py` lines 164-174): `trigger_webhook_for_change`
runs only when the crawl succeeded, `has_changes()` holds, and the
website has webhooks enabled with an endpoint configured. -/
def emitted_events (w : WebsiteWebhookCfg) (p : ProductCrawl) : List String :=
  if p.ok && has_changes p && w.webhook_enabled && w.has_endpoint_url then
    trigger_webhook_for_change p
  else []

/-- Counters of the `CrawlExecutionLog` updated by
`process_scheduled_crawl` (`scheduled_crawl.py` lines 122-211). -/
structure CrawlStats where
  products_processed : Nat
  changes_detected : Nat
  errors_count : Nat
  deriving Repr, DecidableEq

/-- One iteration of the product loop in `process_scheduled_crawl`
(`scheduled_crawl.py` lines 127-205): a successful crawl increments
`products_processed` and increments `changes_detected` exactly when
the webhook gate of line 165 passes; a failed crawl increments
`errors_count`. -/
def crawl_step (w : WebsiteWebhookCfg) (s : CrawlStats) (p : ProductCrawl) :
    CrawlStats :=
  if p.ok then
    { s with
      products_processed := s.products_processed + 1
      changes_detected :=
        if has_changes p && w.webhook_enabled && w.has_endpoint_url then
          s.changes_detected + 1
        else s.changes_detected }
  else
    { s with errors_count := s.errors_count + 1 }

/-- The whole product loop of `process_scheduled_crawl`
(`scheduled_crawl.py` lines 122-205). -/
def crawl_stats (w : WebsiteWebhookCfg) (ps : List ProductCrawl) : CrawlStats :=
  ps.foldl (crawl_step w) ⟨0, 0, 0⟩

/-- Final crawl-log status (`scheduled_crawl.py` lines 217-223). -/
def crawl_final_status (s : CrawlStats) : String :=
  if s.errors_count = 0 then "success"
  else if s.products_processed > 0 then "partial_success"
  else "failed"

/- ------------------------------------------------------------------
Website failure tracking and auto-pause (`scheduled_crawl.py`)
------------------------------------------------------------------ -/

/-- The `MonitoredWebsite` fields driving scheduling and auto-pause
(`models/website.py` lines 54, 87). -/
structure WebsiteState where
  status : String
  consecutive_failures : Nat
  deriving Repr, DecidableEq

/-- Website update after a crawl completes (`scheduled_crawl.py`
lines 229-243): `consecutive_failures` is incremented on a `failed`
crawl-log status and reset to 0 otherwise, and the website is paused
when the counter reaches 3. -/
def update_website_after_crawl (st : WebsiteState) (crawl_status : String) :
    WebsiteState :=
  let failures :=
    if crawl_status = "failed" then st.consecutive_failures + 1 else 0
  { status := if failures ≥ 3 then "paused" else st.status
    consecutive_failures := failures }

/-- `process_scheduled_crawl` begins by selecting the website only if
`status == "active"` (`scheduled_crawl.py` lines 52-67); a website in
any other status is left untouched.  Otherwise the crawl runs and ends
with the update of lines 229-243. -/
def process_crawl_for_website (st : WebsiteState) (crawl_status : String) :
    WebsiteState :=
  if st.status = "active" then update_website_after_crawl st crawl_status
  else st

/-- The scheduler tick enqueues a crawl job for a website exactly when
its status is `active` (`scheduled_crawl.py` lines 404-421). -/
def tick_enqueues (st : WebsiteState) : Bool :=
  st.status = "active"

/- ------------------------------------------------------------------
Fetcher retry: `src/backend/src/services/crawler_service.py`
------------------------------------------------------------------ -/

/-- Outcome of a single HTTP GET inside `CrawlerService.crawl_url`
(`crawler_service.py` lines 92-106): a response with a status code,
or a network/timeout exception. -/
inductive FetchAttempt where
  | status (code : Nat)
  | netError
  | timeout
  deriving Repr, DecidableEq

/-- Whether the attempt lands in the `except` block of `crawl_url`:
any exception, and any response with `status_code != 200`
(`crawler_service.py` lines 102-106 raise `CrawlError` on every
non-200 status, which the `except` at line 135 catches). -/
def attempt_fails : FetchAttempt → Bool
  | .status code => code != 200
  | _ => true

/-- Result of a `crawl_url` call: the final HTTP status on success or
a `CrawlError` message, together with the backoff sleeps performed
(in seconds, `crawler_service.py` lines 146-153). -/
structure CrawlRun where
  result : Except String Nat
  sleeps : List Nat
  deriving Repr

instance : DecidableEq (Except String Nat) := fun a b =>
  match a, b with
  | .ok x, .ok y => if h : x = y then .isTrue (by rw [h]) else .isFalse (by simp [h])
  | .error x, .error y =>
    if h : x = y then .isTrue (by rw [h]) else .isFalse (by simp [h])
  | .ok _, .error _ => .isFalse (by simp)
  | .error _, .ok _ => .isFalse (by simp)

instance : DecidableEq CrawlRun := fun a b =>
  if h : a.result = b.result ∧ a.sleeps = b.sleeps then
    .isTrue (by cases a; cases b; simp_all)
  else .isFalse (by cases a; cases b; simp_all)

/-- `CrawlerService.crawl_url` (`crawler_service.py` lines 55-159)
over a stream of per-attempt outcomes.  A 200 response returns
immediately; any failure retries while `retry_count <
retry_attempts`, sleeping `retry_backoff_base * 2 ** retry_count`
seconds first, and raises `CrawlError` once retries are exhausted.
The empty attempt stream is a model artifact and cannot occur when
the stream has more than `retry_attempts` elements. -/
def crawl_url (retry_attempts retry_backoff_base : Nat) :
    List FetchAttempt → Nat → CrawlRun
  | [], _ => { result := .error "no attempt", sleeps := [] }
  | a :: rest, retry_count =>
    if attempt_fails a then
      if retry_count < retry_attempts then
        let r := crawl_url retry_attempts retry_backoff_base rest (retry_count + 1)
        { r with sleeps := retry_backoff_base * 2 ^ retry_count :: r.sleeps }
      else { result := .error "retries exhausted", sleeps := [] }
    else
      { result := .ok 200, sleeps := [] }

/- ------------------------------------------------------------------
Stock status heuristic (`crawler_service.py` lines 278-289)
------------------------------------------------------------------ -/

/-- Python `needle in haystack` prefix test on character lists. -/
def chars_starts_with : Chars → Chars → Bool
  | [], _ => true
  | _ :: _, [] => false
  | n :: ns, h :: hs => n == h && chars_starts_with ns hs

/-- Python substring containment `needle in haystack` over character
lists: some suffix of the haystack starts with the needle. -/
def py_in (needle : Chars) : Chars → Bool
  | [] => chars_starts_with needle []
  | c :: cs => chars_starts_with needle (c :: cs) || py_in needle cs

/-- Python `str.lower()` restricted to the basic latin letters the
heuristic needs (`Char.toLower` maps exactly `A`-`Z`). -/
def lower_chars (s : Chars) : Chars :=
  s.map Char.toLower

/-- `CrawlerService._extract_stock_status` (`crawler_service.py`
lines 278-289).  The third branch tests the LITERAL substring
`"only.*left"` with the Python `in` operator, exactly as the source
does (line 286). -/
def extract_stock_status (html : Chars) : String :=
  let html_lower := lower_chars html
  if py_in "out of stock".toList html_lower
      || py_in "sold out".toList html_lower
      || py_in "unavailable".toList html_lower then "out_of_stock"
  else if py_in "in stock".toList html_lower
      || py_in "available".toList html_lower
      || py_in "add to cart".toList html_lower then "in_stock"
  else if py_in "limited".toList html_lower
      || py_in "only.*left".toList html_lower then "limited_availability"
  else "unknown"

/-- Remainder of the haystack after the first occurrence of the
needle, or `none` when the needle does not occur. -/
def after_first (needle : Chars) : Chars → Option Chars
  | [] => if chars_starts_with needle [] then some [] else none
  | c :: cs =>
    if chars_starts_with needle (c :: cs) then some ((c :: cs).drop needle.length)
    else after_first needle cs

/-- Modelled from the spec: section 4.4 describes the third tier as
matching `"limited"` or a phrase of the form `only … left` (an
occurrence of `only` followed later by `left`), which the source's
literal `"only.*left"` substring test was evidently meant to be as a
regular expression. -/
def spec_third_tier (html_lower : Chars) : Bool :=
  py_in "limited".toList html_lower ||
    (match after_first "only".toList html_lower with
     | some rest => py_in "left".toList rest
     | none => false)

/- ------------------------------------------------------------------
Webhook signer and verifier: `src/backend/src/core/webhook_security.py`
------------------------------------------------------------------ -/

/-- `WebhookSecurity.TOLERANCE_WINDOW` (`webhook_security.py`
line 28): replay-protection window in seconds. -/
def TOLERANCE_WINDOW : Nat := 300

/-- Decimal digit character for `n < 10`. -/
def digit_char (n : Nat) : Char :=
  Char.ofNat (48 + n)

/-- Decimal digits of a natural number, most significant first;
models Python `str(n)` / f-string formatting of a non-negative int. -/
def nat_digits (n : Nat) : Chars :=
  if _h : n < 10 then [digit_char n]
  else nat_digits (n / 10) ++ [digit_char (n % 10)]
termination_by n
decreasing_by exact Nat.div_lt_self (by omega) (by omega)

/-- Decimal rendering of a Python int, models f-string formatting of
a (possibly negative) timestamp. -/
def int_chars (t : Int) : Chars :=
  if t < 0 then '-' :: nat_digits (-t).toNat else nat_digits t.toNat

/-- Numeric value of a decimal digit character, `none` on anything
else. -/
def digit_val (c : Char) : Option Nat :=
  if 48 ≤ c.toNat ∧ c.toNat ≤ 57 then some (c.toNat - 48) else none

/-- Accumulating decimal parser over the characters of a candidate
number. -/
def parse_nat_aux (acc : Nat) : Chars → Option Nat
  | [] => some acc
  | c :: cs => (digit_val c).bind (fun d => parse_nat_aux (acc * 10 + d) cs)

/-- Python `int(s)` on a non-negative decimal string: every character
must be a digit and the string must be non-empty. -/
def parse_nat (s : Chars) : Option Nat :=
  if s = [] then none else parse_nat_aux 0 s

/-- Python `int(s)` including an optional leading minus sign, as used
on the parsed `t` field (`webhook_security.py` line 117). -/
def parse_int (s : Chars) : Option Int :=
  if s.head? = some '-' then (parse_nat (s.drop 1)).map (fun n => -Int.ofNat n)
  else (parse_nat s).map (fun n => Int.ofNat n)

/-- The signed payload `f"{timestamp}.{payload}"`
(`webhook_security.py` line 58). -/
def signed_payload (timestamp : Int) (payload : Chars) : Chars :=
  int_chars timestamp ++ '.' :: payload

/-- `WebhookSecurity.generate_signature` (`webhook_security.py`
lines 30-78) with an explicit timestamp, parametrised by the
HMAC-SHA256 hex digest `hmac_hex secret message` (the `hmac`/
`hashlib` primitives are the Python standard library, not repository
code).  Returns the header `f"t={timestamp},v1={signature}"` and the
timestamp. -/
def generate_signature (hmac_hex : Chars → Chars → Chars)
    (payload secret : Chars) (timestamp : Int) : Chars × Int :=
  let signature := hmac_hex secret (signed_payload timestamp payload)
  ('t' :: '=' :: int_chars timestamp ++ ',' :: 'v' :: '1' :: '=' :: signature,
    timestamp)

/-- Python `header.split(",")`: split on every separator occurrence,
keeping empty pieces. -/
def split_on_char (sep : Char) : Chars → List Chars
  | [] => [[]]
  | c :: cs =>
    let r := split_on_char sep cs
    if c = sep then [] :: r
    else
      match r with
      | h :: t => (c :: h) :: t
      | [] => [[c]]

/-- Python `item.split("=", 1)` as used to build the header dict
(`webhook_security.py` line 110): key before the first `=`, value
after it.  `none` models the one-element list that makes `dict(...)`
raise `ValueError` (caught at line 119). -/
def split_first_eq : Chars → Option (Chars × Chars)
  | [] => none
  | c :: cs =>
    if c = '=' then some ([], cs)
    else (split_first_eq cs).map (fun p => (c :: p.1, p.2))

/-- All-or-nothing map, modelling the generator inside `dict(...)`
aborting on the first `ValueError`. -/
def map_option_all (f : α → Option β) : List α → Option (List β)
  | [] => some []
  | x :: xs =>
    match f x with
    | none => none
    | some y => (map_option_all f xs).map (y :: ·)

/-- Python `dict(pairs).get(key)`: later bindings of the same key
overwrite earlier ones. -/
def lookup_last (key : Chars) (l : List (Chars × Chars)) : Option Chars :=
  l.foldl (fun acc p => if p.1 = key then some p.2 else acc) none

/-- Failure modes of `WebhookSecurity.verify_signature`, standing for
the error-message strings the Python function returns. -/
inductive VerifyError where
  | malformedHeader
  | timestampTooOld
  | signatureMismatch
  deriving Repr, DecidableEq

/-- `WebhookSecurity.verify_signature` (`webhook_security.py`
lines 80-167) at verification time `now`: parse the header into a
dict, reject when `t` or `v1` is missing or empty or `t` is not an
int; reject when `|now - t| > TOLERANCE_WINDOW`; otherwise recompute
the HMAC over `f"{t}.{payload}"` and compare (`hmac.compare_digest`
is string equality). -/
def verify_signature (hmac_hex : Chars → Chars → Chars)
    (payload signature_header secret : Chars) (now : Int) :
    Bool × Option VerifyError :=
  match map_option_all split_first_eq (split_on_char ',' signature_header) with
  | none => (false, some .malformedHeader)
  | some parts =>
    match lookup_last ['t'] parts, lookup_last ['v', '1'] parts with
    | some timestamp_str, some received_signature =>
      if timestamp_str = [] ∨ received_signature = [] then
        (false, some .malformedHeader)
      else
        match parse_int timestamp_str with
        | none => (false, some .malformedHeader)
        | some timestamp =>
          if (now - timestamp).natAbs > TOLERANCE_WINDOW then
            (false, some .timestampTooOld)
          else
            let expected := hmac_hex secret (signed_payload timestamp payload)
            if expected = received_signature then (true, none)
            else (false, some .signatureMismatch)
    | _, _ => (false, some .malformedHeader)

/-- `WebhookSecurity.verify_signature_with_rotation`
(`webhook_security.py` lines 169-206): try the current secret, then
the previous one when present. -/
def verify_signature_with_rotation (hmac_hex : Chars → Chars → Chars)
    (payload signature_header current_secret : Chars)
    (previous_secret : Option Chars) (now : Int) :
    Bool × Option VerifyError :=
  let r := verify_signature hmac_hex payload signature_header current_secret now
  if r.1 then (true, none)
  else
    match previous_secret with
    | some prev =>
      let r' := verify_signature hmac_hex payload signature_header prev now
      if r'.1 then (true, none) else (false, r.2)
    | none => (false, r.2)

/- ------------------------------------------------------------------
URL normalizer: `src/backend/src/core/url_utils.py`
------------------------------------------------------------------ -/

/-- `TRACKING_PARAMS` (`url_utils.py` lines 17-69), as the list of its
members (the Python set contains `fbclid` twice; set membership is
what matters). -/
def TRACKING_PARAMS : List String :=
  ["utm_source", "utm_medium", "utm_campaign", "utm_term", "utm_content",
   "utm_id", "utm_source_platform", "utm_creative_format",
   "utm_marketing_tactic", "fbclid", "fb_action_ids", "fb_action_types",
   "fb_ref", "fb_source", "gclid", "dclid", "msclkid", "mc_eid", "mc_cid",
   "_ga", "_gl", "ref", "ref_", "pf_rd_p", "pf_rd_r", "pf_rd_s", "pf_rd_t",
   "pf_rd_i", "qid", "share", "sharesource", "igshid", "mkt_tok", "trk",
   "trkid", "sessionid", "sid", "phpsessid", "jsessionid", "_hsenc",
   "_hsmi", "mibextid"]

/-- Python `str.lower()` over a Lean `String` (basic latin letters;
`Char.toLower` maps exactly `A`-`Z`). -/
def str_lower (s : String) : String :=
  ⟨s.data.map Char.toLower⟩

/-- A parsed URL in the shape `urlparse` returns, with the network
location split into host and optional port and the query already in
`parse_qs` pair form (key/value occurrence list).  The string
parse/unparse round trips of the source (`urlparse`, `urlencode`,
`urlunparse`) are modelled as the identity on this structure. -/
structure ParsedUrl where
  scheme : String
  host : String
  port : Option Nat
  path : String
  params : String
  query : List (String × String)
  fragment : String
  deriving Repr, DecidableEq

/-- Key order used by Python `sorted` on the `(key, value)` pairs:
`parse_qs` keys are distinct, so sorting the pairs compares keys
only. -/
def key_le (a b : String × String) : Prop :=
  a.1 ≤ b.1

instance : DecidableRel key_le := fun a b =>
  inferInstanceAs (Decidable (a.1 ≤ b.1))

instance : IsTotal (String × String) key_le :=
  ⟨fun a b => le_total a.1 b.1⟩

instance : IsTrans (String × String) key_le :=
  ⟨fun _ _ _ h h' => le_trans h h'⟩

/-- Python `sorted` on query pairs (`url_utils.py` lines 112-114): a
stable sort by key. -/
def sort_pairs (l : List (String × String)) : List (String × String) :=
  l.insertionSort key_le

/-- Default-port stripping of the `url_normalize` pass: drop port 80
for http and port 443 for https. -/
def norm_port (scheme : String) (port : Option Nat) : Option Nat :=
  if (scheme = "http" ∧ port = some 80) ∨ (scheme = "https" ∧ port = some 443)
  then none else port

/-- Modelled from the spec: the `url_normalize` library pass
(`url_utils.py` line 97) is not repository code; section 4.1 specifies
that normalization lowercases scheme and host and strips default
ports (80 for http, 443 for https). -/
def url_normalize_lib (u : ParsedUrl) : ParsedUrl :=
  { u with
    scheme := str_lower u.scheme
    host := str_lower u.host
    port := norm_port (str_lower u.scheme) u.port }

/-- Modelled from the spec: the `w3lib.url.canonicalize_url` pass
(`url_utils.py` line 137) is not repository code; section 4.1
specifies that canonicalization sorts remaining query keys
lexicographically and removes the fragment unless requested. -/
def canonicalize_url_lib (keep_fragments : Bool) (u : ParsedUrl) : ParsedUrl :=
  { u with
    query := sort_pairs u.query
    fragment := if keep_fragments then u.fragment else "" }

/-- The tracking-parameter filter of `normalize_url` (`url_utils.py`
lines 106-108): keep a pair when its lowercased key is not in
`TRACKING_PARAMS`. -/
def keep_param (kv : String × String) : Bool :=
  ! TRACKING_PARAMS.contains (str_lower kv.1)

/-- `normalize_url` (`url_utils.py` lines 72-157) on the parsed
representation: the `url_normalize` pass, then tracking-parameter
removal with sorting of what remains (lines 103-119, mirroring the
two emptiness branches), fragment removal unless kept (line 122),
the rebuild with lowercased scheme and netloc (lines 125-134), and
the final `canonicalize_url` pass (line 137). -/
def normalize_url (u : ParsedUrl) (keep_fragments : Bool := false) : ParsedUrl :=
  let parsed := url_normalize_lib u
  let new_query :=
    if parsed.query ≠ [] then
      let cleaned_params := parsed.query.filter keep_param
      if cleaned_params ≠ [] then sort_pairs cleaned_params else []
    else parsed.query
  let fragment := if keep_fragments then parsed.fragment else ""
  let rebuilt : ParsedUrl :=
    { scheme := str_lower parsed.scheme
      host := str_lower parsed.host
      port := parsed.port
      path := parsed.path
      params := parsed.params
      query := new_query
      fragment }
  canonicalize_url_lib keep_fragments rebuilt

/- ------------------------------------------------------------------
Theorems
------------------------------------------------------------------ -/

/-- Claim C2: a 2xx response yields status `success`; every other
outcome (non-2xx response, timeout, network error, unexpected error)
yields `retrying` with `next_retry_at = now + RETRY_SCHEDULE[attempt]`
when `attempt_number < 3` (5 minutes after a failed attempt 1, 30
minutes after a failed attempt 2), and `exhausted` with no
`next_retry_at` when `attempt_number = 3`; the status is always one of
`success`, `retrying`, `exhausted`. -/
theorem deliver_webhook_classification (o : HttpOutcome) (a now : Nat) :
    (is2xx o = true →
      (deliver_webhook o a now).status = "success" ∧
      (deliver_webhook o a now).next_retry_at = none) ∧
    (is2xx o = false → a < 3 →
      (deliver_webhook o a now).status = "retrying" ∧
      (deliver_webhook o a now).next_retry_at =
        some (now + RETRY_SCHEDULE.getD a 0)) ∧
    (is2xx o = false → a = 1 →
      (deliver_webhook o a now).next_retry_at = some (now + 5)) ∧
    (is2xx o = false → a = 2 →
      (deliver_webhook o a now).next_retry_at = some (now + 30)) ∧
    (is2xx o = false → a = 3 →
      (deliver_webhook o a now).status = "exhausted" ∧
      (deliver_webhook o a now).next_retry_at = none) ∧
    ((deliver_webhook o a now).status = "success" ∨
      (deliver_webhook o a now).status = "retrying" ∨
      (deliver_webhook o a now).status = "exhausted") := by
  refine ⟨fun h => ?_, fun h hlt => ?_, fun h h1 => ?_, fun h h2 => ?_,
    fun h h3 => ?_, ?_⟩
  · cases o <;> simp_all [deliver_webhook, is2xx]
  · cases o <;> simp_all [deliver_webhook, is2xx, MAX_ATTEMPTS]
  · subst h1
    cases o <;> simp_all [deliver_webhook, is2xx, MAX_ATTEMPTS, RETRY_SCHEDULE]
  · subst h2
    cases o <;> simp_all [deliver_webhook, is2xx, MAX_ATTEMPTS, RETRY_SCHEDULE]
  · subst h3
    cases o <;> simp_all [deliver_webhook, is2xx, MAX_ATTEMPTS]
  · cases o <;> simp only [deliver_webhook] <;> split_ifs <;> simp_all

/-- Witness for claim C2 at a concrete failed first attempt. -/
theorem deliver_webhook_classification_witness :
    (deliver_webhook (.response 503 []) 1 0).status = "retrying" ∧
    (deliver_webhook (.response 503 []) 1 0).next_retry_at = some 5 := by
  have h := (deliver_webhook_classification (.response 503 []) 1 0).2.1
    (by decide) (by decide)
  exact ⟨h.1, h.2.trans (by decide)⟩

/-- Claim C8 counterexample: a 1010-byte response body is within the
claimed 1024-byte limit, yet the stored `response_body` is not the
full body — the code truncates at 1000 characters
(`webhook_service.py` line 140), not 1024 bytes. -/
theorem response_body_1010_truncated :
    (deliver_webhook (.response 200 (List.replicate 1010 'a')) 1 0).response_body
      ≠ some (List.replicate 1010 'a') ∧
    (List.replicate 1010 'a').length ≤ 1024 := by
  have hb : (deliver_webhook (.response 200 (List.replicate 1010 'a'))
      1 0).response_body = some (List.replicate 1000 'a') := by
    have ht : (List.replicate 1010 'a').take 1000 = List.replicate 1000 'a' := by
      rw [List.take_replicate]
      norm_num
    simp only [deliver_webhook, ht]
    split_ifs <;> rfl
  refine ⟨?_, by rw [List.length_replicate]; norm_num⟩
  rw [hb]
  intro hEq
  have hlen := congrArg List.length (Option.some.inj hEq)
  rw [List.length_replicate, List.length_replicate] at hlen
  exact absurd hlen (by norm_num)

/-- Claim C8 amended: for every HTTP response the stored
`response_body` is the body truncated to its first 1000 characters
(so bodies of up to 1000 characters are stored in full and longer
ones are cut at 1000, not 1024); non-response outcomes store no
body. -/
theorem response_body_truncated_1000 (s : Nat) (b : Chars) (a now : Nat) :
    (deliver_webhook (.response s b) a now).response_body = some (b.take 1000) ∧
    (deliver_webhook .timeout a now).response_body = none ∧
    (deliver_webhook .requestError a now).response_body = none ∧
    (deliver_webhook .unexpectedError a now).response_body = none := by
  refine ⟨?_, ?_, ?_, ?_⟩ <;>
    (simp only [deliver_webhook]; split_ifs <;> rfl)

/-- Claim C1 counterexample: with webhooks enabled and an endpoint
configured, a crawl in which the price gate
(`price_changed && exceeded_threshold`) and `stock_changed` both hold
emits only the stock event — the price event is overwritten
(`scheduled_crawl.py` lines 298-361 share one `event` variable), so
no `product.price_changed` delivery is enqueued although its
condition holds. -/
theorem both_changes_emit_only_stock_event :
    emitted_events ⟨true, true⟩ ⟨true, true, true, true⟩ =
      ["product.stock_changed"] ∧
    "product.price_changed" ∉
      emitted_events ⟨true, true⟩ ⟨true, true, true, true⟩ := by
  decide

/-- Claim C1 amended: when the webhook gate passes (crawl ok, some
change detected, webhooks enabled, endpoint set), at most one
delivery is enqueued per product crawl: the `product.stock_changed`
event exactly when `stock_changed` holds, and the
`product.price_changed` event exactly when
`price_changed && exceeded_threshold` holds and `stock_changed` does
not (the stock branch overwrites the price event when both hold). -/
theorem emitted_events_characterization (w : WebsiteWebhookCfg)
    (p : ProductCrawl) :
    ("product.stock_changed" ∈ emitted_events w p ↔
      p.ok = true ∧ w.webhook_enabled = true ∧ w.has_endpoint_url = true ∧
        p.stock_changed = true) ∧
    ("product.price_changed" ∈ emitted_events w p ↔
      p.ok = true ∧ w.webhook_enabled = true ∧ w.has_endpoint_url = true ∧
        p.price_changed = true ∧ p.exceeded_threshold = true ∧
        p.stock_changed = false) ∧
    (emitted_events w p).length ≤ 1 := by
  obtain ⟨ok, pc, ex, sc⟩ := p
  obtain ⟨en, ep⟩ := w
  cases ok <;> cases pc <;> cases ex <;> cases sc <;> cases en <;> cases ep <;>
    decide

/-- Accumulator form of the `changes_detected` counter over the
product loop. -/
theorem crawl_stats_changes_aux (w : WebsiteWebhookCfg)
    (ps : List ProductCrawl) (s : CrawlStats) :
    (ps.foldl (crawl_step w) s).changes_detected =
      s.changes_detected +
        ps.countP
          (fun p => p.ok && has_changes p && w.webhook_enabled &&
            w.has_endpoint_url) := by
  induction ps generalizing s with
  | nil => simp
  | cons p ps ih =>
    rw [List.foldl_cons, ih, List.countP_cons]
    unfold crawl_step
    cases hok : p.ok <;>
      cases hg : has_changes p && w.webhook_enabled && w.has_endpoint_url <;>
        (simp [hok, hg]; try omega)

/-- Claim C10: `changes_detected` on the crawl log counts exactly the
successfully crawled products whose detected change passed the
webhook gate (`has_changes`, `webhook_enabled`, endpoint configured);
with webhooks disabled it is 0 regardless of detected changes. -/
theorem changes_detected_counts_webhook_gate (w : WebsiteWebhookCfg)
    (ps : List ProductCrawl) :
    (crawl_stats w ps).changes_detected =
      ps.countP
        (fun p => p.ok && has_changes p && w.webhook_enabled &&
          w.has_endpoint_url) ∧
    (w.webhook_enabled = false → (crawl_stats w ps).changes_detected = 0) := by
  have h := crawl_stats_changes_aux w ps ⟨0, 0, 0⟩
  refine ⟨by simpa using h, fun hw => ?_⟩
  rw [crawl_stats, h]
  simp [hw]

/-- Witness for claim C10: a detected change with webhooks disabled
leaves `changes_detected` at 0. -/
theorem changes_detected_witness :
    (crawl_stats ⟨false, true⟩ [⟨true, true, true, true⟩]).changes_detected
      = 0 :=
  (changes_detected_counts_webhook_gate ⟨false, true⟩
    [⟨true, true, true, true⟩]).2 rfl

/-- A website whose status is not `active` is never modified by a
scheduled crawl (`scheduled_crawl.py` lines 52-67 return early). -/
theorem foldl_process_crawl_of_not_active (st : WebsiteState)
    (hst : st.status ≠ "active") (os : List String) :
    os.foldl process_crawl_for_website st = st := by
  induction os with
  | nil => rfl
  | cons o os ih =>
    rw [List.foldl_cons]
    rw [process_crawl_for_website, if_neg hst]
    exact ih

/-- Claim C6: after any crawl completion that brings
`consecutive_failures` to 3 or more, the website's status is
`paused`, the scheduler tick no longer enqueues a crawl job for it,
and any sequence of further scheduled-crawl attempts leaves its state
unchanged (recovery requires a manual status change). -/
theorem auto_pause_after_three_failures (st : WebsiteState) (o : String)
    (os : List String)
    (h3 : (update_website_after_crawl st o).consecutive_failures ≥ 3) :
    (update_website_after_crawl st o).status = "paused" ∧
    tick_enqueues (update_website_after_crawl st o) = false ∧
    os.foldl process_crawl_for_website (update_website_after_crawl st o) =
      update_website_after_crawl st o := by
  have hp : (update_website_after_crawl st o).status = "paused" := by
    unfold update_website_after_crawl at h3 ⊢
    simp only at h3 ⊢
    rw [if_pos h3]
  refine ⟨hp, ?_, ?_⟩
  · rw [tick_enqueues, hp]
    decide
  · exact foldl_process_crawl_of_not_active _ (by rw [hp]; decide) os

/-- Witness for claim C6: a third consecutive failure pauses the
website and later ticks leave it untouched. -/
theorem auto_pause_witness :
    (update_website_after_crawl ⟨"active", 2⟩ "failed").status = "paused" ∧
    tick_enqueues (update_website_after_crawl ⟨"active", 2⟩ "failed") = false ∧
    ["failed", "success"].foldl process_crawl_for_website
        (update_website_after_crawl ⟨"active", 2⟩ "failed") =
      update_website_after_crawl ⟨"active", 2⟩ "failed" :=
  auto_pause_after_three_failures ⟨"active", 2⟩ "failed" ["failed", "success"]
    (by decide)

/-- Claim C4 counterexample: when the previous price and the new
price are both 0 the prices are equal, yet the history row is written
with `price_changed = true` — the `old_price == 0` guard of
`change_detector.py` line 205 reports a change before comparing the
prices. -/
theorem zero_to_zero_price_flagged_changed :
    (write_history_row (some { price := some 0, price_changed := false })
      (some 0) 1).price_changed = true ∧
    (write_history_row (some { price := some 0, price_changed := false })
      (some 0) 1).price = some 0 := by
  decide

/-- Claim C4 amended: for a history row with a previous record,
`price_changed` holds exactly when the prices differ (a null/non-null
transition counting as a change and null-to-null as no change) OR
the previous price is 0 and the new price is non-null — in that
last case the flag is set even when the new price is also 0. -/
theorem price_changed_characterization (old_price new_price : Option ℚ)
    (th : ℚ) (b : Bool) :
    (write_history_row (some { price := old_price, price_changed := b })
        new_price th).price_changed = true ↔
      (old_price ≠ new_price ∨ (old_price = some 0 ∧ new_price ≠ none)) := by
  unfold write_history_row detect_price_change
  match old_price, new_price with
  | none, none => simp
  | none, some n => simp
  | some o, none => simp
  | some o, some n =>
    by_cases ho : o = 0
    · subst ho
      simp
    · by_cases heq : o = n
      · subst heq
        simp [ho]
      · simp [ho, heq]

/-- Claim C5 counterexample: an HTTP 404 on the first attempt is not
returned as a permanent error — `crawl_url` raises `CrawlError` on
every non-200 status (`crawler_service.py` lines 102-106) and the
`except` block retries it (lines 135-153), sleeping the backoff
(here `1 * 2 ^ 0 = 1` second) and succeeding on the second attempt. -/
theorem http_404_is_retried :
    crawl_url 3 1 [.status 404, .status 200] 0 =
      { result := .ok 200, sleeps := [1] } := by
  decide

/-- Claim C5 amended: the fetcher retries EVERY failed attempt —
network error, timeout, or any non-200 HTTP status, 4xx included —
up to `CRAWL_RETRY_ATTEMPTS` times, sleeping
`CRAWL_RETRY_BACKOFF_BASE * 2 ^ attempt` seconds before each retry;
a 200 response after a run of failures returns successfully with
exactly those backoff sleeps. -/
theorem crawl_url_retries_every_failure (ra bb : Nat)
    (pre rest : List FetchAttempt) (rc : Nat)
    (hfail : ∀ a ∈ pre, attempt_fails a = true)
    (hlen : rc + pre.length ≤ ra) :
    crawl_url ra bb (pre ++ .status 200 :: rest) rc =
      { result := .ok 200,
        sleeps := (List.range pre.length).map (fun i => bb * 2 ^ (rc + i)) } := by
  induction pre generalizing rc with
  | nil =>
    simp only [List.nil_append, List.length_nil, List.range_zero, List.map_nil]
    rw [crawl_url]
    norm_num [attempt_fails]
  | cons a pre ih =>
    have hfa : attempt_fails a = true := hfail a (by simp)
    have hrc : rc < ra := by
      simp only [List.length_cons] at hlen
      omega
    rw [List.cons_append, crawl_url, if_pos hfa, if_pos hrc]
    rw [ih (rc + 1) (fun x hx => hfail x (List.mem_cons_of_mem a hx))
      (by simp only [List.length_cons] at hlen; omega)]
    simp only [List.length_cons, List.range_succ_eq_map, List.map_cons,
      List.map_map]
    refine congrArg (CrawlRun.mk (.ok 200)) ?_
    rw [Nat.add_zero]
    refine congrArg (bb * 2 ^ rc :: ·) ?_
    refine List.map_congr_left fun i _ => ?_
    simp only [Function.comp_apply, Nat.succ_eq_add_one]
    have hx : rc + 1 + i = rc + (i + 1) := by omega
    rw [hx]

/-- Witness for claim C5: two failures (a 503 and a timeout) are
retried with backoffs 2 and 4 seconds before the succeeding third
attempt. -/
theorem crawl_url_retries_witness :
    crawl_url 3 2 [.status 503, .timeout, .status 200] 0 =
      { result := .ok 200, sleeps := [2, 4] } := by
  have h := crawl_url_retries_every_failure 3 2 [.status 503, .timeout] [] 0
    (by decide) (by decide)
  exact h.trans (by decide)

/-- Claim C7: on the body `"only 3 left"` the parser returns
`unknown`, not `limited_availability` — the third tier tests the
literal substring `"only.*left"` (`crawler_service.py` line 286), a
regular-expression pattern used with the `in` operator, so the
spec's `only … left` phrase form (which matches this body) is never
recognised. -/
theorem only_left_phrase_yields_unknown :
    extract_stock_status "only 3 left".toList = "unknown" ∧
    spec_third_tier (lower_chars "only 3 left".toList) = true := by
  decide

/-- `Char.ofNat` on a scalar value below the surrogate range keeps
its numeric value. -/
theorem char_toNat_ofNat (n : Nat) (h : n < 55296) :
    (Char.ofNat n).toNat = n := by
  have hv : Nat.isValidChar n := Or.inl h
  rw [Char.ofNat, dif_pos hv]
  rfl

/-- The numeric value of a digit character. -/
theorem digit_char_toNat (n : Nat) (h : n < 10) :
    (digit_char n).toNat = 48 + n := by
  rw [digit_char, char_toNat_ofNat _ (by omega)]

/-- Every character produced by `nat_digits` is a decimal digit. -/
theorem nat_digits_are_digits (n : Nat) :
    ∀ c ∈ nat_digits n, 48 ≤ c.toNat ∧ c.toNat ≤ 57 := by
  induction n using Nat.strong_induction_on with
  | _ n ih =>
    intro c hc
    rw [nat_digits] at hc
    by_cases h : n < 10
    · rw [dif_pos h] at hc
      simp only [List.mem_singleton] at hc
      subst hc
      rw [digit_char_toNat n h]
      omega
    · rw [dif_neg h] at hc
      rcases List.mem_append.mp hc with h1 | h2
      · exact ih (n / 10) (Nat.div_lt_self (by omega) (by omega)) c h1
      · simp only [List.mem_singleton] at h2
        subst h2
        rw [digit_char_toNat (n % 10) (Nat.mod_lt _ (by omega))]
        have := Nat.mod_lt n (show 0 < 10 by omega)
        omega

/-- `nat_digits` never returns the empty list. -/
theorem nat_digits_ne_nil (n : Nat) : nat_digits n ≠ [] := by
  rw [nat_digits]
  by_cases h : n < 10
  · rw [dif_pos h]
    simp
  · rw [dif_neg h]
    simp [nat_digits_ne_nil (n / 10)]
termination_by n
decreasing_by exact Nat.div_lt_self (by omega) (by omega)

/-- `parse_nat_aux` over an append runs the two parts in sequence. -/
theorem parse_nat_aux_append (xs ys : Chars) (acc : Nat) :
    parse_nat_aux acc (xs ++ ys) =
      (parse_nat_aux acc xs).bind (fun a => parse_nat_aux a ys) := by
  induction xs generalizing acc with
  | nil => rfl
  | cons c cs ih =>
    rw [List.cons_append]
    cases hd : digit_val c with
    | none => simp [parse_nat_aux, hd]
    | some d => simp [parse_nat_aux, hd, ih]

/-- Parsing the digits of `n` starting from accumulator `acc` yields
`acc` shifted by the number of digits, plus `n`. -/
theorem parse_nat_aux_nat_digits (n : Nat) :
    ∀ acc, parse_nat_aux acc (nat_digits n) =
      some (acc * 10 ^ (nat_digits n).length + n) := by
  induction n using Nat.strong_induction_on with
  | _ n ih =>
    intro acc
    rw [nat_digits]
    by_cases h : n < 10
    · rw [dif_pos h]
      have hd : digit_val (digit_char n) = some n := by
        rw [digit_val, digit_char_toNat n h, if_pos (by omega)]
        congr 1
        omega
      simp [parse_nat_aux, hd]
    · rw [dif_neg h]
      rw [parse_nat_aux_append]
      rw [ih (n / 10) (Nat.div_lt_self (by omega) (by omega)) acc]
      have hd : digit_val (digit_char (n % 10)) = some (n % 10) := by
        rw [digit_val, digit_char_toNat (n % 10) (Nat.mod_lt _ (by omega)),
          if_pos (by have := Nat.mod_lt n (show 0 < 10 by omega); omega)]
        congr 1
        omega
      simp only [parse_nat_aux, hd, Option.some_bind]
      rw [List.length_append, List.length_singleton, pow_succ, ← mul_assoc]
      set k := acc * 10 ^ (nat_digits (n / 10)).length with hk
      congr 1
      omega

/-- Round trip: `parse_nat` recovers `n` from its decimal digits. -/
theorem parse_nat_nat_digits (n : Nat) : parse_nat (nat_digits n) = some n := by
  rw [parse_nat, if_neg (nat_digits_ne_nil n)]
  rw [parse_nat_aux_nat_digits n 0]
  simp

/-- The head of `nat_digits` is a digit, hence not a minus sign. -/
theorem nat_digits_head_ne_minus (n : Nat) :
    (nat_digits n).head? ≠ some '-' := by
  intro h
  have hm : '-' ∈ nat_digits n := by
    cases hd : nat_digits n with
    | nil => rw [hd] at h; simp at h
    | cons c cs =>
      rw [hd] at h
      simp only [List.head?_cons, Option.some.injEq] at h
      subst h
      exact List.mem_cons_self _ _
  have := nat_digits_are_digits n '-' hm
  have hv : ('-').toNat = 45 := by decide
  omega

/-- Round trip: `parse_int` recovers `t` from its decimal rendering. -/
theorem parse_int_int_chars (t : Int) : parse_int (int_chars t) = some t := by
  rw [int_chars]
  by_cases ht : t < 0
  · rw [if_pos ht, parse_int]
    rw [if_pos (show ('-' :: nat_digits (-t).toNat).head? = some '-' from rfl)]
    rw [show ('-' :: nat_digits (-t).toNat).drop 1 = nat_digits (-t).toNat
      from rfl]
    rw [parse_nat_nat_digits]
    rw [Option.map_some']
    congr 1
    have h1 : Int.ofNat (-t).toNat = -t := by
      rw [Int.ofNat_eq_coe]
      exact Int.toNat_of_nonneg (by omega)
    rw [h1, neg_neg]
  · rw [if_neg ht, parse_int, if_neg (nat_digits_head_ne_minus t.toNat)]
    rw [parse_nat_nat_digits]
    rw [Option.map_some']
    congr 1
    rw [Int.ofNat_eq_coe]
    exact Int.toNat_of_nonneg (by omega)

/-- No character of `nat_digits` is a comma. -/
theorem nat_digits_no_comma (n : Nat) : ',' ∉ nat_digits n := by
  intro h
  have := nat_digits_are_digits n ',' h
  have hv : (',').toNat = 44 := by decide
  omega

/-- No character of `int_chars` is a comma. -/
theorem int_chars_no_comma (t : Int) : ',' ∉ int_chars t := by
  rw [int_chars]
  by_cases ht : t < 0
  · rw [if_pos ht]
    intro h
    rcases List.mem_cons.mp h with h1 | h2
    · exact absurd h1 (by decide)
    · exact nat_digits_no_comma _ h2
  · rw [if_neg ht]
    exact nat_digits_no_comma _

/-- `split_on_char` of a separator-free list is that list alone. -/
theorem split_on_char_of_not_mem (sep : Char) (xs : Chars) (h : sep ∉ xs) :
    split_on_char sep xs = [xs] := by
  induction xs with
  | nil => rfl
  | cons c cs ih =>
    have hc : ¬c = sep := fun hcc => h (hcc ▸ List.mem_cons_self c cs)
    have hcs : sep ∉ cs := fun hm => h (List.mem_cons_of_mem c hm)
    rw [split_on_char, if_neg hc, ih hcs]

/-- `split_on_char` splits off a separator-free prefix. -/
theorem split_on_char_append (sep : Char) (a b : Chars) (ha : sep ∉ a) :
    split_on_char sep (a ++ sep :: b) = a :: split_on_char sep b := by
  induction a with
  | nil =>
    rw [List.nil_append, split_on_char, if_pos rfl]
  | cons c cs ih =>
    have hc : ¬c = sep := fun hcc => ha (hcc ▸ List.mem_cons_self c cs)
    have hcs : sep ∉ cs := fun hm => ha (List.mem_cons_of_mem c hm)
    rw [List.cons_append, split_on_char, if_neg hc, ih hcs]

/-- `split_first_eq` splits a `key=value` item at its first `=`. -/
theorem split_first_eq_append (k v : Chars) (hk : '=' ∉ k) :
    split_first_eq (k ++ '=' :: v) = some (k, v) := by
  induction k with
  | nil =>
    rw [List.nil_append, split_first_eq, if_pos rfl]
  | cons c cs ih =>
    have hc : ¬c = '=' := fun hcc => hk (hcc ▸ List.mem_cons_self c cs)
    have hcs : '=' ∉ cs := fun hm => hk (List.mem_cons_of_mem c hm)
    rw [List.cons_append, split_first_eq, if_neg hc, ih hcs]
    rfl

/-- Claim C3: verifying the header produced by signing `payload` with
`secret` at timestamp `t`, against the same payload and secret at
verification time `now`, succeeds exactly when
`|now - t| ≤ 300` seconds; outside the window it fails with the
timestamp error even though the recomputed HMAC matches.  The theorem
is parametric in the HMAC-SHA256 hex digest; the hypotheses hold of
any hex digest (64 hex characters contain no comma and are
non-empty). -/
theorem verify_sign_roundtrip (hmac_hex : Chars → Chars → Chars)
    (payload secret : Chars) (t now : Int)
    (hcomma : ',' ∉ hmac_hex secret (signed_payload t payload))
    (hne : hmac_hex secret (signed_payload t payload) ≠ []) :
    ((verify_signature hmac_hex payload
        (generate_signature hmac_hex payload secret t).1 secret now).1 = true ↔
      (now - t).natAbs ≤ TOLERANCE_WINDOW) ∧
    ((now - t).natAbs > TOLERANCE_WINDOW →
      verify_signature hmac_hex payload
        (generate_signature hmac_hex payload secret t).1 secret now =
        (false, some .timestampTooOld)) := by
  set sig := hmac_hex secret (signed_payload t payload) with hsig
  have hhdr : (generate_signature hmac_hex payload secret t).1 =
      ('t' :: '=' :: int_chars t) ++ ',' :: ('v' :: '1' :: '=' :: sig) := by
    rw [generate_signature]
  have ha : ',' ∉ 't' :: '=' :: int_chars t := by
    intro hm
    rcases List.mem_cons.mp hm with h1 | hm2
    · exact absurd h1 (by decide)
    rcases List.mem_cons.mp hm2 with h2 | hm3
    · exact absurd h2 (by decide)
    · exact int_chars_no_comma t hm3
  have hb : ',' ∉ 'v' :: '1' :: '=' :: sig := by
    intro hm
    rcases List.mem_cons.mp hm with h1 | hm2
    · exact absurd h1 (by decide)
    rcases List.mem_cons.mp hm2 with h2 | hm3
    · exact absurd h2 (by decide)
    rcases List.mem_cons.mp hm3 with h3 | hm4
    · exact absurd h3 (by decide)
    · exact hcomma hm4
  have hsplit : split_on_char ','
      (('t' :: '=' :: int_chars t) ++ ',' :: ('v' :: '1' :: '=' :: sig)) =
      ['t' :: '=' :: int_chars t, 'v' :: '1' :: '=' :: sig] := by
    rw [split_on_char_append ',' _ _ ha, split_on_char_of_not_mem ',' _ hb]
  have h1 : split_first_eq ('t' :: '=' :: int_chars t) =
      some (['t'], int_chars t) := by
    have h := split_first_eq_append ['t'] (int_chars t) (by decide)
    simpa using h
  have h2 : split_first_eq ('v' :: '1' :: '=' :: sig) =
      some (['v', '1'], sig) := by
    have h := split_first_eq_append ['v', '1'] sig (by decide)
    simpa using h
  have hparse : map_option_all split_first_eq
      ['t' :: '=' :: int_chars t, 'v' :: '1' :: '=' :: sig] =
      some [(['t'], int_chars t), (['v', '1'], sig)] := by
    rw [map_option_all, h1, map_option_all, h2, map_option_all]
    rfl
  have hlt : lookup_last ['t']
      [(['t'], int_chars t), (['v', '1'], sig)] = some (int_chars t) := by
    rw [lookup_last]
    show (if (['v', '1'] : Chars) = ['t'] then some sig
      else if (['t'] : Chars) = ['t'] then some (int_chars t) else none) =
        some (int_chars t)
    rw [if_neg (by decide), if_pos rfl]
  have hlv : lookup_last ['v', '1']
      [(['t'], int_chars t), (['v', '1'], sig)] = some sig := by
    rw [lookup_last]
    show (if (['v', '1'] : Chars) = ['v', '1'] then some sig
      else if (['t'] : Chars) = ['v', '1'] then some (int_chars t) else none) =
        some sig
    rw [if_pos rfl]
  have hts : int_chars t ≠ [] := by
    rw [int_chars]
    by_cases ht : t < 0
    · rw [if_pos ht]
      simp
    · rw [if_neg ht]
      exact nat_digits_ne_nil _
  have hver : verify_signature hmac_hex payload
      (generate_signature hmac_hex payload secret t).1 secret now =
      (if (now - t).natAbs > TOLERANCE_WINDOW then
        (false, some .timestampTooOld)
      else (true, none)) := by
    rw [hhdr, verify_signature, hsplit, hparse]
    dsimp only
    rw [hlt, hlv]
    dsimp only
    rw [if_neg (by push_neg; exact ⟨hts, hne⟩)]
    rw [parse_int_int_chars]
    dsimp only
    by_cases h300 : (now - t).natAbs > TOLERANCE_WINDOW
    · rw [if_pos h300, if_pos h300]
    · rw [if_neg h300, if_neg h300, if_pos rfl]
  refine ⟨?_, fun h300 => by rw [hver, if_pos h300]⟩
  rw [hver]
  by_cases h300 : (now - t).natAbs > TOLERANCE_WINDOW
  · rw [if_pos h300]
    constructor
    · intro hfalse
      exact absurd hfalse (by decide)
    · intro hle
      omega
  · rw [if_neg h300]
    constructor
    · intro _
      omega
    · intro _
      rfl

/-- Witness for claim C3 at a concrete digest function, payload,
secret and timestamps inside the window. -/
theorem verify_sign_roundtrip_witness :
    (verify_signature (fun _ _ => ['a', 'b']) ['x']
      (generate_signature (fun _ _ => ['a', 'b']) ['x'] ['s'] 0).1 ['s']
      100).1 = true :=
  ((verify_sign_roundtrip (fun _ _ => ['a', 'b']) ['x'] ['s'] 0 100
    (by decide) (by decide)).1).mpr (by decide)

/-- `Char.toLower` is idempotent: a lowercased basic latin letter is
no longer upper case. -/
theorem char_toLower_idem (c : Char) : c.toLower.toLower = c.toLower := by
  unfold Char.toLower
  by_cases h : c.toNat ≥ 65 ∧ c.toNat ≤ 90
  · rw [if_pos h]
    have h32 : (Char.ofNat (c.toNat + 32)).toNat = c.toNat + 32 :=
      char_toNat_ofNat _ (by omega)
    rw [if_neg (by rw [h32]; omega)]
  · rw [if_neg h, if_neg h]

/-- `str_lower` is idempotent. -/
theorem str_lower_idem (s : String) : str_lower (str_lower s) = str_lower s := by
  unfold str_lower
  refine congrArg String.mk ?_
  show (s.data.map Char.toLower).map Char.toLower = s.data.map Char.toLower
  rw [List.map_map]
  exact List.map_congr_left fun c _ => char_toLower_idem c

/-- Sorting an already sorted pair list is the identity, so
`sort_pairs` is idempotent. -/
theorem sort_pairs_idem (l : List (String × String)) :
    sort_pairs (sort_pairs l) = sort_pairs l :=
  List.Sorted.insertionSort_eq (List.sorted_insertionSort key_le l)

/-- `sort_pairs` preserves membership. -/
theorem mem_sort_pairs {kv : String × String} {l : List (String × String)} :
    kv ∈ sort_pairs l ↔ kv ∈ l :=
  (List.perm_insertionSort key_le l).mem_iff

/-- `norm_port` is idempotent for a fixed scheme. -/
theorem norm_port_idem (s : String) (p : Option Nat) :
    norm_port s (norm_port s p) = norm_port s p := by
  unfold norm_port
  by_cases h : (s = "http" ∧ p = some 80) ∨ (s = "https" ∧ p = some 443)
  · rw [if_pos h, if_neg (by simp)]
  · rw [if_neg h, if_neg h]

/-- The two emptiness branches of the query rebuild in
`normalize_url` collapse to filter-then-sort. -/
theorem new_query_collapse (q : List (String × String)) :
    (if q ≠ [] then
        (if q.filter keep_param ≠ [] then sort_pairs (q.filter keep_param)
         else [])
      else q) = sort_pairs (q.filter keep_param) := by
  by_cases hq : q = []
  · subst hq
    simp [sort_pairs, List.insertionSort]
  · rw [if_pos hq]
    by_cases hf : q.filter keep_param = []
    · rw [if_neg (by simp [hf]), hf]
      simp [sort_pairs, List.insertionSort]
    · rw [if_pos hf]

/-- Closed form of `normalize_url` with `keep_fragments = false`:
lowercase scheme and host twice, strip the default port once, filter
the tracking parameters and sort twice, drop the fragment. -/
theorem normalize_url_unfold (u : ParsedUrl) :
    normalize_url u =
      { scheme := str_lower (str_lower u.scheme)
        host := str_lower (str_lower u.host)
        port := norm_port (str_lower u.scheme) u.port
        path := u.path
        params := u.params
        query := sort_pairs (sort_pairs (u.query.filter keep_param))
        fragment := "" } := by
  unfold normalize_url url_normalize_lib canonicalize_url_lib
  simp only [new_query_collapse]
  rfl

/-- Claim C9: the URL normalizer is idempotent —
`normalize_url (normalize_url u) = normalize_url u` for every parsed
URL. -/
theorem normalize_url_idempotent (u : ParsedUrl) :
    normalize_url (normalize_url u) = normalize_url u := by
  rw [normalize_url_unfold u, normalize_url_unfold]
  have hfilter : (sort_pairs (u.query.filter keep_param)).filter
      keep_param = sort_pairs (u.query.filter keep_param) := by
    rw [List.filter_eq_self]
    intro kv hkv
    rw [mem_sort_pairs] at hkv
    exact List.of_mem_filter hkv
  simp only [hfilter, str_lower_idem, norm_port_idem, sort_pairs_idem]
